import Mathlib

/-!
Verification of the Lumenpulse vesting-wallet core (a linear token-vesting
escrow for the Soroban ledger).  The repository ships the two event records
(`events.rs`); the schedule calculator and the claim state machine are
specified in the design document, so they are modelled here from the spec.
Soroban `i128` values are embedded as `Int` (with explicit range bounds where
overflow matters), `u64` timestamps as `Nat`, and `Address` as an opaque
numeric handle.  Rust's truncating integer division is `Int.tdiv`.
-/

namespace Lumenpulse

/-- Opaque ledger identity handle (Soroban `Address`). -/
abbrev Address : Type := Nat

/-- Largest unsigned 64-bit value, the upper bound of the ledger-time domain. -/
def U64_LIMIT : Nat := 2 ^ 64

/-- Largest signed 128-bit value, the upper bound of Soroban `i128` amounts. -/
def I128_MAX : Int := 2 ^ 127 - 1

/-- From `events.rs`: `VestingCreatedEvent { beneficiary (topic), amount : i128,
start_time : u64, duration : u64 }`, with derived `Clone, Debug, Eq, PartialEq`. -/
structure VestingCreatedEvent where
  beneficiary : Address
  amount : Int
  start_time : Nat
  duration : Nat
deriving DecidableEq, Repr

/-- From `events.rs`: `TokensClaimedEvent { beneficiary (topic),
amount_claimed : i128, remaining : i128 }`, with derived `Clone, Debug, Eq,
PartialEq`. -/
structure TokensClaimedEvent where
  beneficiary : Address
  amount_claimed : Int
  remaining : Int
deriving DecidableEq, Repr

/-- Rust's derived `PartialEq` for `VestingCreatedEvent`: field-wise boolean
comparison of all four fields. -/
def VestingCreatedEvent.beq (a b : VestingCreatedEvent) : Bool :=
  decide (a.beneficiary = b.beneficiary) && decide (a.amount = b.amount) &&
    decide (a.start_time = b.start_time) && decide (a.duration = b.duration)

/-- Rust's derived `PartialEq` for `TokensClaimedEvent`: field-wise boolean
comparison of all three fields. -/
def TokensClaimedEvent.beq (a b : TokensClaimedEvent) : Bool :=
  decide (a.beneficiary = b.beneficiary) && decide (a.amount_claimed = b.amount_claimed) &&
    decide (a.remaining = b.remaining)

/-- Modelled from the spec: the persisted `VestingSchedule` record (the Rust
struct itself is not under `src/`): beneficiary handle, `total_amount : i128`,
`start_time : u64`, `duration : u64`, and the mutable `claimed : i128`. -/
structure VestingSchedule where
  beneficiary : Address
  total_amount : Int
  start_time : Nat
  duration : Nat
  claimed : Int
deriving DecidableEq, Repr

/-- Modelled from the spec: the error taxonomy of §7 (the Rust error enum is
not under `src/`). -/
inductive VestingError where
  | AlreadyInitialized
  | NotInitialized
  | InvalidAmount
  | InvalidDuration
  | TimeOverflow
  | Unauthorized
  | NothingToClaim
  | TransferFailed
deriving DecidableEq, Repr

/-- Modelled from the spec: the Schedule Calculator `unlocked_amount` (§4.1,
not under `src/`).  `now <= start_time` gives `0`; `now >= start_time +
duration` gives `total_amount`; otherwise the truncated (Rust `/` on wide
integers, i.e. toward zero) quotient `total_amount * (now - start_time) /
duration`, the multiplication carried out in unbounded precision as the spec's
≥192-bit intermediate demands. -/
def unlocked_amount (total_amount : Int) (start_time duration now : Nat) : Int :=
  if now ≤ start_time then 0
  else if start_time + duration ≤ now then total_amount
  else Int.tdiv (total_amount * ((now - start_time : Nat) : Int)) ((duration : Nat) : Int)

/-- Modelled from the spec: the `create` operation (§4.2, not under `src/`).
Authorization and the escrow deposit live in excluded collaborators; the
in-core checks, in the spec's order, are `AlreadyInitialized`, `InvalidAmount`
(`total_amount <= 0`), `InvalidDuration` (`duration <= 0` on `u64`, i.e.
`= 0`), and `TimeOverflow` (`start_time + duration` exceeds the `u64` domain).
Success persists the schedule with `claimed = 0` and yields the
`VestingCreatedEvent`. -/
def create (existing : Option VestingSchedule) (beneficiary : Address)
    (total_amount : Int) (start_time duration : Nat) :
    Except VestingError (VestingSchedule × VestingCreatedEvent) :=
  if existing.isSome then .error .AlreadyInitialized
  else if total_amount ≤ 0 then .error .InvalidAmount
  else if duration = 0 then .error .InvalidDuration
  else if U64_LIMIT ≤ start_time + duration then .error .TimeOverflow
  else .ok ({ beneficiary := beneficiary, total_amount := total_amount,
              start_time := start_time, duration := duration, claimed := 0 },
            { beneficiary := beneficiary, amount := total_amount,
              start_time := start_time, duration := duration })

/-- Modelled from the spec: the `claim` operation on an existing (Active)
schedule (§4.2, not under `src/`).  Authorization and the escrow transfer live
in excluded collaborators.  `available = unlocked_amount(...) - claimed`;
`NothingToClaim` when `available <= 0`; otherwise the transferred amount is
`min requested available` when a request is supplied and `available` when it is
omitted, `claimed` is bumped by it, and the `TokensClaimedEvent` carries the
transferred amount and the post-update remainder. -/
def claim (s : VestingSchedule) (requested_amount : Option Int) (now : Nat) :
    Except VestingError (VestingSchedule × Int × TokensClaimedEvent) :=
  let available : Int :=
    unlocked_amount s.total_amount s.start_time s.duration now - s.claimed
  if available ≤ 0 then .error .NothingToClaim
  else
    let transferred : Int :=
      match requested_amount with
      | some r => min r available
      | none => available
    let newClaimed : Int := s.claimed + transferred
    .ok ({ s with claimed := newClaimed }, transferred,
         { beneficiary := s.beneficiary, amount_claimed := transferred,
           remaining := s.total_amount - newClaimed })

/-- Modelled from the spec: a sequence of `claim` invocations, each tagged with
its optional requested amount and its ledger time; the run stops (yields
`none`) at the first failing call, so a `some` result is a sequence of
successful claims. -/
def runClaims : VestingSchedule → List (Option Int × Nat) → Option VestingSchedule
  | s, [] => some s
  | s, c :: cs =>
    match claim s c.1 c.2 with
    | .ok (s', _, _) => runClaims s' cs
    | .error _ => none

/-! ## Branch lemmas and bounds for the Schedule Calculator -/

theorem unlocked_amount_before (total : Int) (st dur now : Nat) (h : now ≤ st) :
    unlocked_amount total st dur now = 0 := by
  unfold unlocked_amount
  rw [if_pos h]

theorem unlocked_amount_after (total : Int) (st dur now : Nat)
    (h1 : st < now) (h2 : st + dur ≤ now) :
    unlocked_amount total st dur now = total := by
  unfold unlocked_amount
  rw [if_neg (by omega), if_pos h2]

theorem unlocked_amount_mid (total : Int) (st dur now : Nat)
    (h1 : st < now) (h2 : now < st + dur) :
    unlocked_amount total st dur now =
      Int.tdiv (total * ((now - st : Nat) : Int)) (((dur : Nat) : Int)) := by
  unfold unlocked_amount
  rw [if_neg (by omega), if_neg (by omega)]

theorem unlocked_amount_nonneg (total : Int) (st dur now : Nat) (h : 0 ≤ total) :
    0 ≤ unlocked_amount total st dur now := by
  unfold unlocked_amount
  split_ifs with h1 h2
  · exact le_refl 0
  · exact h
  · rw [Int.tdiv_eq_ediv (mul_nonneg h (Int.natCast_nonneg _)) (Int.natCast_nonneg _)]
    exact Int.ediv_nonneg (mul_nonneg h (Int.natCast_nonneg _)) (Int.natCast_nonneg _)

theorem unlocked_amount_le_total (total : Int) (st dur now : Nat) (h : 0 ≤ total) :
    unlocked_amount total st dur now ≤ total := by
  unfold unlocked_amount
  split_ifs with h1 h2
  · exact h
  · exact le_refl total
  · have hdur : 0 < dur := by omega
    have hdur' : (0 : Int) < ((dur : Nat) : Int) := by exact_mod_cast hdur
    have hdelta : ((now - st : Nat) : Int) ≤ ((dur : Nat) : Int) := by
      exact_mod_cast Nat.sub_le_iff_le_add.mpr (by omega)
    rw [Int.tdiv_eq_ediv (mul_nonneg h (Int.natCast_nonneg _)) (Int.natCast_nonneg _)]
    calc total * ((now - st : Nat) : Int) / ((dur : Nat) : Int)
        ≤ total * ((dur : Nat) : Int) / ((dur : Nat) : Int) :=
          Int.ediv_le_ediv hdur' (mul_le_mul_of_nonneg_left hdelta h)
      _ = total := Int.mul_ediv_cancel _ hdur'.ne'

/-- C2: for every `total_amount > 0` and `duration > 0`, `unlocked_amount` is
`0` at `start_time` and at every earlier time, and is exactly `total_amount` at
`start_time + duration` and at every later time. -/
theorem unlocked_amount_boundaries (total : Int) (st dur : Nat)
    (htot : 0 < total) (hdur : 0 < dur) :
    unlocked_amount total st dur st = 0 ∧
    (∀ now, now ≤ st → unlocked_amount total st dur now = 0) ∧
    unlocked_amount total st dur (st + dur) = total ∧
    (∀ now, st + dur ≤ now → unlocked_amount total st dur now = total) := by
  refine ⟨unlocked_amount_before total st dur st le_rfl,
    fun now h => unlocked_amount_before total st dur now h,
    unlocked_amount_after total st dur (st + dur) (by omega) le_rfl,
    fun now h => unlocked_amount_after total st dur now (by omega) h⟩

/-- C2 witness at `total = 1000`, `start = 0`, `duration = 100`. -/
theorem unlocked_amount_boundaries_witness :
    unlocked_amount 1000 0 100 0 = 0 ∧ unlocked_amount 1000 0 100 100 = 1000 := by
  obtain ⟨h1, -, h3, -⟩ :=
    unlocked_amount_boundaries 1000 0 100 (by decide) (by decide)
  exact ⟨h1, h3⟩

/-- C3: `unlocked_amount` is monotone in the query time, for a schedule whose
`total_amount` satisfies the data-model invariant `total_amount > 0`. -/
theorem unlocked_amount_monotone (total : Int) (st dur t1 t2 : Nat)
    (htot : 0 < total) (h : t1 < t2) :
    unlocked_amount total st dur t1 ≤ unlocked_amount total st dur t2 := by
  rcases le_or_lt t1 st with h1 | h1
  · rw [unlocked_amount_before total st dur t1 h1]
    exact unlocked_amount_nonneg total st dur t2 htot.le
  · rcases le_or_lt (st + dur) t1 with h2 | h2
    · rw [unlocked_amount_after total st dur t1 h1 h2,
        unlocked_amount_after total st dur t2 (by omega) (by omega)]
    · rcases le_or_lt (st + dur) t2 with h3 | h3
      · rw [unlocked_amount_after total st dur t2 (by omega) h3]
        exact unlocked_amount_le_total total st dur t1 htot.le
      · rw [unlocked_amount_mid total st dur t1 h1 h2,
          unlocked_amount_mid total st dur t2 (by omega) h3]
        have hdur' : (0 : Int) < ((dur : Nat) : Int) := by
          exact_mod_cast (show 0 < dur by omega)
        have hdelta : ((t1 - st : Nat) : Int) ≤ ((t2 - st : Nat) : Int) := by
          exact_mod_cast (show t1 - st ≤ t2 - st by omega)
        rw [Int.tdiv_eq_ediv (mul_nonneg htot.le (Int.natCast_nonneg _)) (Int.natCast_nonneg _),
          Int.tdiv_eq_ediv (mul_nonneg htot.le (Int.natCast_nonneg _)) (Int.natCast_nonneg _)]
        exact Int.ediv_le_ediv hdur' (mul_le_mul_of_nonneg_left hdelta htot.le)

/-- C3 witness at `total = 1000`, `start = 0`, `duration = 100`, times 30 < 60. -/
theorem unlocked_amount_monotone_witness :
    unlocked_amount 1000 0 100 30 ≤ unlocked_amount 1000 0 100 60 :=
  unlocked_amount_monotone 1000 0 100 30 60 (by decide) (by decide)

/-- C4: strictly between `start_time` and `start_time + duration`,
`unlocked_amount` is exactly the floor quotient of `total_amount * (now -
start_time)` by `duration` (truncation and floor agree on these nonnegative
operands), it never rounds up (the result times `duration` never exceeds the
product), and for any `i128` amount and `u64` delta the intermediate product
stays below `2 ^ 191`, inside a signed 192-bit range. -/
theorem unlocked_amount_mid_floor_and_width (total : Int) (st dur now : Nat)
    (h1 : st < now) (h2 : now < st + dur)
    (htot : 0 < total) (hmax : total ≤ I128_MAX) (hdur : dur < U64_LIMIT) :
    unlocked_amount total st dur now =
      total * ((now - st : Nat) : Int) / ((dur : Nat) : Int) ∧
    unlocked_amount total st dur now * ((dur : Nat) : Int) ≤
      total * ((now - st : Nat) : Int) ∧
    total * ((now - st : Nat) : Int) < 2 ^ 191 := by
  have hdur0 : 0 < dur := by omega
  have hdur' : (0 : Int) < ((dur : Nat) : Int) := by exact_mod_cast hdur0
  have hnum : (0 : Int) ≤ total * ((now - st : Nat) : Int) :=
    mul_nonneg htot.le (Int.natCast_nonneg _)
  have hfloor : unlocked_amount total st dur now =
      total * ((now - st : Nat) : Int) / ((dur : Nat) : Int) := by
    rw [unlocked_amount_mid total st dur now h1 h2,
      Int.tdiv_eq_ediv hnum (Int.natCast_nonneg _)]
  refine ⟨hfloor, ?_, ?_⟩
  · rw [hfloor]
    exact Int.ediv_mul_le _ hdur'.ne'
  · have hdelta : ((now - st : Nat) : Int) ≤ (2 : Int) ^ 64 - 1 := by
      have : now - st ≤ 2 ^ 64 - 1 := by
        have := hdur
        unfold U64_LIMIT at this
        omega
      calc ((now - st : Nat) : Int) ≤ ((2 ^ 64 - 1 : Nat) : Int) := by exact_mod_cast this
        _ = (2 : Int) ^ 64 - 1 := by norm_num
    have hmax' : total ≤ (2 : Int) ^ 127 - 1 := by
      unfold I128_MAX at hmax
      exact hmax
    calc total * ((now - st : Nat) : Int)
        ≤ ((2 : Int) ^ 127 - 1) * ((2 : Int) ^ 64 - 1) :=
          mul_le_mul hmax' hdelta (Int.natCast_nonneg _) (by norm_num)
      _ < 2 ^ 191 := by norm_num

/-- C4 witness at `total = 7`, `start = 0`, `duration = 3`, `now = 2`. -/
theorem unlocked_amount_mid_floor_and_width_witness :
    unlocked_amount 7 0 3 2 = 7 * ((2 : Nat) : Int) / ((3 : Nat) : Int) ∧
    unlocked_amount 7 0 3 2 * ((3 : Nat) : Int) ≤ 7 * ((2 : Nat) : Int) ∧
    (7 : Int) * ((2 : Nat) : Int) < 2 ^ 191 :=
  unlocked_amount_mid_floor_and_width 7 0 3 2 (by decide) (by decide)
    (by decide) (by norm_num [I128_MAX]) (by norm_num [U64_LIMIT])

/-! ## The claim state machine -/

theorem claim_ok_spec (s : VestingSchedule) (req : Option Int) (now : Nat)
    (s' : VestingSchedule) (t : Int) (ev : TokensClaimedEvent)
    (h : claim s req now = .ok (s', t, ev)) :
    0 < unlocked_amount s.total_amount s.start_time s.duration now - s.claimed ∧
    t ≤ unlocked_amount s.total_amount s.start_time s.duration now - s.claimed ∧
    s' = { s with claimed := s.claimed + t } ∧
    ev = { beneficiary := s.beneficiary, amount_claimed := t,
           remaining := s.total_amount - (s.claimed + t) } := by
  simp only [claim] at h
  split at h
  · simp at h
  next hpos =>
    rw [Except.ok.injEq, Prod.mk.injEq, Prod.mk.injEq] at h
    obtain ⟨hs, ht, hev⟩ := h
    subst ht
    subst hs
    subst hev
    refine ⟨not_le.mp hpos, ?_, rfl, rfl⟩
    cases req with
    | none => simp
    | some r => simp [min_le_right]

/-- C1: for every schedule and every sequence of successful `claim` calls,
immediately after each call the cumulative `claimed` is at most the amount
unlocked at that call's ledger time — claims never pay ahead of the
schedule. -/
theorem claims_never_exceed_unlocked (s : VestingSchedule)
    (calls : List (Option Int × Nat)) (req : Option Int) (now : Nat)
    (s' : VestingSchedule)
    (h : runClaims s (calls ++ [(req, now)]) = some s') :
    s'.claimed ≤ unlocked_amount s'.total_amount s'.start_time s'.duration now := by
  induction calls generalizing s with
  | nil =>
    simp only [List.nil_append, runClaims] at h
    cases hc : claim s req now with
    | error e => rw [hc] at h; simp at h
    | ok v =>
      obtain ⟨s1, t, ev⟩ := v
      rw [hc] at h
      simp only [runClaims] at h
      obtain rfl : s1 = s' := by injection h
      obtain ⟨hpos, ht, hs, hev⟩ := claim_ok_spec s req now s1 t ev hc
      subst hs
      show s.claimed + t ≤ unlocked_amount s.total_amount s.start_time s.duration now
      linarith [ht]
  | cons c cs ih =>
    simp only [List.cons_append, runClaims] at h
    cases hc : claim s c.1 c.2 with
    | error e => rw [hc] at h; simp at h
    | ok v =>
      obtain ⟨s1, t1, ev1⟩ := v
      rw [hc] at h
      exact ih s1 h

/-- C1 witness: a single full claim at time 50 on the scenario schedule leaves
`claimed = 500 ≤ unlocked_amount 1000 0 100 50`. -/
theorem claims_never_exceed_unlocked_witness :
    (500 : Int) ≤ unlocked_amount 1000 0 100 50 :=
  claims_never_exceed_unlocked ⟨0, 1000, 0, 100, 0⟩ [] none 50
    ⟨0, 1000, 0, 100, 500⟩ (by decide)

/-- C5: with `avail = unlocked_amount(...) - claimed`, a `claim` with a
supplied request transfers `min requested avail`, a `claim` with the request
omitted transfers all of `avail`, and `claim` fails with `NothingToClaim`
exactly when `avail ≤ 0` — in which case no new state and no event are
produced (the error result carries neither). -/
theorem claim_transfer_spec (s : VestingSchedule) (now : Nat) (avail : Int)
    (ha : avail = unlocked_amount s.total_amount s.start_time s.duration now - s.claimed) :
    (avail ≤ 0 → ∀ req, claim s req now = .error .NothingToClaim) ∧
    (0 < avail →
      (∀ r : Int, claim s (some r) now =
        .ok ({ s with claimed := s.claimed + min r avail }, min r avail,
             { beneficiary := s.beneficiary, amount_claimed := min r avail,
               remaining := s.total_amount - (s.claimed + min r avail) })) ∧
      claim s none now =
        .ok ({ s with claimed := s.claimed + avail }, avail,
             { beneficiary := s.beneficiary, amount_claimed := avail,
               remaining := s.total_amount - (s.claimed + avail) })) := by
  subst ha
  refine ⟨fun h req => ?_, fun h => ⟨fun r => ?_, ?_⟩⟩
  · simp only [claim]
    rw [if_pos h]
  · simp only [claim]
    rw [if_neg (not_le.mpr h)]
  · simp only [claim]
    rw [if_neg (not_le.mpr h)]

/-- C5 witness: a partial request of 200 against 500 available transfers 200. -/
theorem claim_transfer_spec_witness :
    claim ⟨0, 1000, 0, 100, 0⟩ (some 200) 50 =
      .ok (⟨0, 1000, 0, 100, 0 + min 200 500⟩, min 200 500,
           ⟨0, min 200 500, 1000 - (0 + min 200 500)⟩) :=
  ((claim_transfer_spec ⟨0, 1000, 0, 100, 0⟩ 50 500 (by decide)).2 (by decide)).1 200

/-- C6: once `claimed = total_amount`, every further `claim`, at any time and
for any requested amount, fails with `NothingToClaim`; the error result carries
no new state, so nothing ever leaves the terminal state. -/
theorem fully_claimed_terminal (s : VestingSchedule)
    (hinv : 0 ≤ s.total_amount) (hfull : s.claimed = s.total_amount)
    (req : Option Int) (now : Nat) :
    claim s req now = .error .NothingToClaim := by
  have hle := unlocked_amount_le_total s.total_amount s.start_time s.duration now hinv
  simp only [claim]
  rw [if_pos (by rw [hfull]; linarith)]

/-- C6 witness: the fully claimed scenario schedule rejects a later claim. -/
theorem fully_claimed_terminal_witness :
    claim ⟨0, 1000, 0, 100, 1000⟩ none 200 = .error .NothingToClaim :=
  fully_claimed_terminal ⟨0, 1000, 0, 100, 1000⟩ (by decide) (by decide) none 200

/-- C7: every successful `claim` yields exactly one `TokensClaimedEvent`,
whose payload is the schedule's beneficiary (the indexed topic), the
transferred amount, and the post-update remainder `total_amount - claimed`,
and nothing else (the structure equality pins every field). -/
theorem claim_event_payload (s : VestingSchedule) (req : Option Int) (now : Nat)
    (s' : VestingSchedule) (t : Int) (ev : TokensClaimedEvent)
    (h : claim s req now = .ok (s', t, ev)) :
    ev = { beneficiary := s.beneficiary, amount_claimed := t,
           remaining := s.total_amount - s'.claimed } ∧
    s'.claimed = s.claimed + t := by
  obtain ⟨-, -, hs, hev⟩ := claim_ok_spec s req now s' t ev h
  subst hs
  exact ⟨hev, rfl⟩

/-- C7 witness: the scenario claim of 500 at time 50 emits
`{beneficiary 0, amount_claimed 500, remaining 500}`. -/
theorem claim_event_payload_witness :
    ({ beneficiary := 0, amount_claimed := 500, remaining := 500 } : TokensClaimedEvent) =
      { beneficiary := 0, amount_claimed := 500, remaining := 1000 - 500 } ∧
    (500 : Int) = 0 + 500 :=
  claim_event_payload ⟨0, 1000, 0, 100, 0⟩ none 50 ⟨0, 1000, 0, 100, 500⟩ 500
    ⟨0, 500, 500⟩ rfl

/-! ## Creation and event records -/

/-- C8: every successful `create` yields exactly one `VestingCreatedEvent`,
whose payload is the beneficiary (the indexed topic), `amount = total_amount`,
and the schedule's `start_time` and `duration`, and nothing else (the structure
equality pins every field); the persisted schedule starts with `claimed = 0`. -/
theorem create_event_payload (existing : Option VestingSchedule) (b : Address)
    (total : Int) (st dur : Nat) (s : VestingSchedule) (ev : VestingCreatedEvent)
    (h : create existing b total st dur = .ok (s, ev)) :
    ev = { beneficiary := b, amount := total, start_time := st, duration := dur } ∧
    s = { beneficiary := b, total_amount := total, start_time := st,
          duration := dur, claimed := 0 } := by
  simp only [create] at h
  split_ifs at h
  rw [Except.ok.injEq, Prod.mk.injEq] at h
  exact ⟨h.2.symm, h.1.symm⟩

/-- C8 witness: the scenario creation emits
`{beneficiary 7, amount 1000, start_time 5, duration 100}`. -/
theorem create_event_payload_witness :
    ({ beneficiary := 7, amount := 1000, start_time := 5,
       duration := 100 } : VestingCreatedEvent) =
      { beneficiary := 7, amount := 1000, start_time := 5, duration := 100 } ∧
    ({ beneficiary := 7, total_amount := 1000, start_time := 5, duration := 100,
       claimed := 0 } : VestingSchedule) =
      { beneficiary := 7, total_amount := 1000, start_time := 5, duration := 100,
        claimed := 0 } :=
  create_event_payload none 7 1000 5 100 _ _ rfl

/-- C9: `create` rejects malformed parameters rather than coercing them: with
no schedule yet persisted, it fails with `InvalidAmount` on `total_amount ≤ 0`,
with `InvalidDuration` on `duration = 0` (the `u64` reading of `duration ≤ 0`),
and with `TimeOverflow` when `start_time + duration` leaves the `u64` domain
— the checks are taken in the spec's precedence order, and every error result
carries no schedule and no event. -/
theorem create_rejects_malformed (b : Address) (total : Int) (st dur : Nat) :
    (total ≤ 0 → create none b total st dur = .error .InvalidAmount) ∧
    (0 < total → dur = 0 → create none b total st dur = .error .InvalidDuration) ∧
    (0 < total → 0 < dur → U64_LIMIT ≤ st + dur →
      create none b total st dur = .error .TimeOverflow) := by
  refine ⟨fun h => ?_, fun h1 h2 => ?_, fun h1 h2 h3 => ?_⟩
  · simp only [create]
    rw [if_neg (by simp), if_pos h]
  · simp only [create]
    rw [if_neg (by simp), if_neg (not_le.mpr h1), if_pos h2]
  · simp only [create]
    rw [if_neg (by simp), if_neg (not_le.mpr h1), if_neg h2.ne', if_pos h3]

/-- C9 witness: a negative amount, a zero duration, and an end time past the
`u64` limit are each rejected with the matching error. -/
theorem create_rejects_malformed_witness :
    create none 7 (-5) 0 100 = .error .InvalidAmount ∧
    create none 7 1000 0 0 = .error .InvalidDuration ∧
    create none 7 1000 (2 ^ 64 - 1) 5 = .error .TimeOverflow :=
  ⟨(create_rejects_malformed 7 (-5) 0 100).1 (by decide),
   (create_rejects_malformed 7 1000 0 0).2.1 (by decide) rfl,
   (create_rejects_malformed 7 1000 (2 ^ 64 - 1) 5).2.2 (by decide) (by decide)
     (by norm_num [U64_LIMIT])⟩

theorem vce_beq_iff (a b : VestingCreatedEvent) :
    VestingCreatedEvent.beq a b = true ↔ a = b := by
  cases a
  cases b
  simp [VestingCreatedEvent.beq, VestingCreatedEvent.mk.injEq, and_assoc]

theorem vce_fields_iff (a b : VestingCreatedEvent) :
    a = b ↔ a.beneficiary = b.beneficiary ∧ a.amount = b.amount ∧
      a.start_time = b.start_time ∧ a.duration = b.duration := by
  cases a
  cases b
  simp [VestingCreatedEvent.mk.injEq]

theorem tce_beq_iff (a b : TokensClaimedEvent) :
    TokensClaimedEvent.beq a b = true ↔ a = b := by
  cases a
  cases b
  simp [TokensClaimedEvent.beq, TokensClaimedEvent.mk.injEq, and_assoc]

theorem tce_fields_iff (a b : TokensClaimedEvent) :
    a = b ↔ a.beneficiary = b.beneficiary ∧ a.amount_claimed = b.amount_claimed ∧
      a.remaining = b.remaining := by
  cases a
  cases b
  simp [TokensClaimedEvent.mk.injEq]

/-- C10: the derived structural equality of both event records holds exactly
when all corresponding fields are equal, and it is reflexive, symmetric and
transitive. -/
theorem event_structural_equality :
    (∀ a b : VestingCreatedEvent, (VestingCreatedEvent.beq a b = true ↔ a = b) ∧
      (a = b ↔ a.beneficiary = b.beneficiary ∧ a.amount = b.amount ∧
        a.start_time = b.start_time ∧ a.duration = b.duration)) ∧
    (∀ a b : TokensClaimedEvent, (TokensClaimedEvent.beq a b = true ↔ a = b) ∧
      (a = b ↔ a.beneficiary = b.beneficiary ∧ a.amount_claimed = b.amount_claimed ∧
        a.remaining = b.remaining)) ∧
    (∀ a : VestingCreatedEvent, VestingCreatedEvent.beq a a = true) ∧
    (∀ a b : VestingCreatedEvent, VestingCreatedEvent.beq a b = true →
      VestingCreatedEvent.beq b a = true) ∧
    (∀ a b c : VestingCreatedEvent, VestingCreatedEvent.beq a b = true →
      VestingCreatedEvent.beq b c = true → VestingCreatedEvent.beq a c = true) ∧
    (∀ a : TokensClaimedEvent, TokensClaimedEvent.beq a a = true) ∧
    (∀ a b : TokensClaimedEvent, TokensClaimedEvent.beq a b = true →
      TokensClaimedEvent.beq b a = true) ∧
    (∀ a b c : TokensClaimedEvent, TokensClaimedEvent.beq a b = true →
      TokensClaimedEvent.beq b c = true → TokensClaimedEvent.beq a c = true) :=
  ⟨fun a b => ⟨vce_beq_iff a b, vce_fields_iff a b⟩,
   fun a b => ⟨tce_beq_iff a b, tce_fields_iff a b⟩,
   fun a => (vce_beq_iff a a).mpr rfl,
   fun a b h => (vce_beq_iff b a).mpr ((vce_beq_iff a b).mp h).symm,
   fun a b c h1 h2 => (vce_beq_iff a c).mpr
     (((vce_beq_iff a b).mp h1).trans ((vce_beq_iff b c).mp h2)),
   fun a => (tce_beq_iff a a).mpr rfl,
   fun a b h => (tce_beq_iff b a).mpr ((tce_beq_iff a b).mp h).symm,
   fun a b c h1 h2 => (tce_beq_iff a c).mpr
     (((tce_beq_iff a b).mp h1).trans ((tce_beq_iff b c).mp h2))⟩

/-- C10 witness: the symmetry component applied to two equal concrete
`VestingCreatedEvent` values. -/
theorem event_structural_equality_witness :
    VestingCreatedEvent.beq ⟨1, 2, 3, 4⟩ ⟨1, 2, 3, 4⟩ = true :=
  event_structural_equality.2.2.2.1 ⟨1, 2, 3, 4⟩ ⟨1, 2, 3, 4⟩ (by decide)

end Lumenpulse
